import Mathlib

/-!
# Robot kinematic state (`ai/world/robot.cpp`) and navigator (`ai/navigator/rrt/rrt.cpp`)

A shallow embedding of the `Robot` class of the navigation core and of the
dispatch of intents by `RRTNav`, with the properties of the update and prediction
operations and of the primitives that the navigator returns.

* Scalars (`double` in the source) are elements of a linearly ordered field `K`:
  the statements are about exact arithmetic.
* `std::chrono::steady_clock::time_point` is an integer tick count (`Int`);
  `duration_cast<milliseconds>` is the truncating division by the number of
  ticks per millisecond.
* A member function is a function from the object's state to an `Outcome`: either
  the call returns (a value together with the object's state after the call) or
  the process is terminated by `exit`.
-/

namespace Thunderbots

/-! ## Outcomes of a call -/

/-- The two ways a call of a member function can end: it returns to its caller,
or it terminates the process through `exit(status)` after writing the lines
`err` to `std::cerr`. -/
inductive Outcome (α : Type) where
  | returned (value : α)
  | exited (status : Int) (err : List String)
  deriving DecidableEq, Repr

/-- A member function of an object with state `σ` returning an `α`. -/
def Method (σ α : Type) : Type := σ → Outcome (α × σ)

namespace Method

variable {σ α β : Type}

/-- Returning a value without touching the object. -/
def ret (a : α) : Method σ α := fun s => Outcome.returned (a, s)

/-- Sequencing of two statements; a terminated process runs nothing further. -/
def seq (m : Method σ α) (f : α → Method σ β) : Method σ β := fun s =>
  match m s with
  | Outcome.returned (a, s1) => f a s1
  | Outcome.exited c e => Outcome.exited c e

/-- Reading the object (`*this`). -/
def self : Method σ σ := fun s => Outcome.returned (s, s)

/-- Overwriting the object's fields. -/
def assign (s1 : σ) : Method σ Unit := fun _ => Outcome.returned ((), s1)

/-- The library call `exit(status)`, after `err` has been written to `std::cerr`. -/
def exit (status : Int) (err : List String) : Method σ α :=
  fun _ => Outcome.exited status err

end Method

instance (σ : Type) : Monad (Method σ) where
  pure := Method.ret
  bind := Method.seq

/-! ## Geometry -/

/-- Modelled from the spec: the geometry library of the repository (`geom/point.h`,
`geom/angle.h`) is not among the source files. Its two primitive operations that
the robot model relies on are parameters of the embedding: `hypot` is the
Euclidean length `|v|` of the vector with the given coordinates (behind
`Vector::len`), and `wrap` is the reduction of the radian value of a sum of
angles that `Angle::operator+` applies. -/
structure Geometry (K : Type) where
  hypot : K → K → K
  wrap : K → K

/-- Modelled from the spec: `Point` (`geom/point.h`, not among the source files),
a 2D vector with coordinates `x` and `y`. `Vector` is the same type. -/
structure Point (K : Type) where
  x : K
  y : K
  deriving DecidableEq, Repr

/-- `Vector` is another name of `Point`. -/
abbrev Vector (K : Type) : Type := Point K

/-- Modelled from the spec: `Angle` (`geom/angle.h`, not among the source files),
a planar rotation given by its value in radians. -/
structure Angle (K : Type) where
  rads : K
  deriving DecidableEq, Repr

/-- `AngularVelocity` is a rate of rotation, an angle per second. -/
abbrev AngularVelocity (K : Type) : Type := Angle K

section Geom

variable {K : Type} [LinearOrderedField K]

/-- The default `Point()`: the origin. -/
def Point.zero : Point K := ⟨0, 0⟩

/-- Modelled from the spec: `Point::operator+`, the componentwise sum. -/
def Point.add (p q : Point K) : Point K := ⟨p.x + q.x, p.y + q.y⟩

/-- Modelled from the spec: `Vector::len`, the length `|v|`. -/
def Point.len (g : Geometry K) (v : Point K) : K := g.hypot v.x v.y

/-- Modelled from the spec: `Vector::norm(l)`, the direction of `v` scaled to the
length `l` (`velocity_direction * l`); the zero vector has no direction and
gives the zero vector. -/
def Point.norm (g : Geometry K) (v : Point K) (l : K) : Point K :=
  if v.len g = 0 then Point.zero else ⟨v.x * l / v.len g, v.y * l / v.len g⟩

/-- `Angle::zero()`. -/
def Angle.zero : Angle K := ⟨0⟩

/-- Modelled from the spec: `Angle::operator+`, the sum of the radian values
reduced by the geometry's `wrap`. -/
def Angle.add (g : Geometry K) (a b : Angle K) : Angle K := ⟨g.wrap (a.rads + b.rads)⟩

/-- Modelled from the spec: `Angle::operator*(double)`, scaling of an angle. -/
def Angle.scale (a : Angle K) (c : K) : Angle K := ⟨a.rads * c⟩

end Geom

/-! ## Time -/

/-- A `std::chrono::steady_clock::time_point`: a count of clock ticks. -/
abbrev TimePoint : Type := Int

/-- Ticks of `steady_clock` in one millisecond (the clock counts nanoseconds). -/
def ticksPerMillisecond : Int := 1000000

/-- The conversion `std::chrono::duration_cast<std::chrono::milliseconds>` of a
difference of time points: integer division truncating towards zero. -/
def toMilliseconds (d : Int) : Int := Int.tdiv d ticksPerMillisecond

/-- The conversion `duration_cast<duration<double>>(ms).count()`: a number of
milliseconds as seconds. -/
def toSeconds {K : Type} [LinearOrderedField K] (ms : Int) : K := (ms : K) / 1000

/-! ## The robot -/

/-- The data members of `Robot`. -/
structure Robot (K : Type) where
  id : Nat
  position : Point K
  velocity : Vector K
  orientation : Angle K
  angularVelocity : AngularVelocity K
  lastUpdateTimestamp : TimePoint
  deriving DecidableEq, Repr

namespace Robot

variable {K : Type} [LinearOrderedField K]

/-- The constructor `Robot(id, timestamp)`. -/
def mkZero (id : Nat) (timestamp : TimePoint) : Robot K :=
  ⟨id, Point.zero, Point.zero, Angle.zero, Angle.zero, timestamp⟩

/-- The method `Robot::updateState(new_position, new_velocity, new_orientation,
new_angular_velocity, timestamp)`. -/
def updateState (new_position : Point K) (new_velocity : Vector K)
    (new_orientation : Angle K) (new_angular_velocity : AngularVelocity K)
    (timestamp : TimePoint) : Method (Robot K) Unit := do
  let this ← Method.self
  if timestamp < this.lastUpdateTimestamp then
    Method.exit 1 []
  else
    Method.assign
      { this with
        position := new_position
        velocity := new_velocity
        orientation := new_orientation
        angularVelocity := new_angular_velocity
        lastUpdateTimestamp := timestamp }

/-- The overload `Robot::updateState(const Robot &new_robot_data)`. -/
def updateStateFrom (new_robot_data : Robot K) : Method (Robot K) Unit := do
  let this ← Method.self
  if new_robot_data.id ≠ this.id then
    Method.exit 1 ["Error: Robot updated using a robot with a mismatched id"]
  else
    updateState new_robot_data.position new_robot_data.velocity
      new_robot_data.orientation new_robot_data.angularVelocity
      new_robot_data.lastUpdateTimestamp

/-- The method `Robot::estimatePositionAtFutureTime`. The guard on a negative
argument has an empty body in the source. -/
def estimatePositionAtFutureTime (g : Geometry K) (milliseconds_in_future : Int) :
    Method (Robot K) (Point K) := do
  let this ← Method.self
  if milliseconds_in_future < 0 then
    pure ()
  let seconds_in_future : K := toSeconds milliseconds_in_future
  return this.position.add
    (this.velocity.norm g (this.velocity.len g * seconds_in_future))

/-- The method `Robot::estimateVelocityAtFutureTime`. -/
def estimateVelocityAtFutureTime (milliseconds_in_future : Int) :
    Method (Robot K) (Vector K) := do
  let this ← Method.self
  if milliseconds_in_future < 0 then
    pure ()
  return this.velocity

/-- The method `Robot::estimateOrientationAtFutureTime`. -/
def estimateOrientationAtFutureTime (g : Geometry K) (milliseconds_in_future : Int) :
    Method (Robot K) (Angle K) := do
  let this ← Method.self
  if milliseconds_in_future < 0 then
    pure ()
  let seconds_in_future : K := toSeconds milliseconds_in_future
  return Angle.add g this.orientation (this.angularVelocity.scale seconds_in_future)

/-- The method `Robot::estimateAngularVelocityAtFutureTime`. -/
def estimateAngularVelocityAtFutureTime (milliseconds_in_future : Int) :
    Method (Robot K) (AngularVelocity K) := do
  let this ← Method.self
  if milliseconds_in_future < 0 then
    pure ()
  return this.angularVelocity

/-- The method `Robot::updateStateToPredictedState`. -/
def updateStateToPredictedState (g : Geometry K) (timestamp : TimePoint) :
    Method (Robot K) Unit := do
  let this ← Method.self
  if timestamp < this.lastUpdateTimestamp then
    Method.exit 1 []
  else
    let milliseconds_in_future := toMilliseconds (timestamp - this.lastUpdateTimestamp)
    let new_position ← estimatePositionAtFutureTime g milliseconds_in_future
    let new_velocity ← estimateVelocityAtFutureTime milliseconds_in_future
    let new_orientation ← estimateOrientationAtFutureTime g milliseconds_in_future
    let new_angular_velocity ← estimateAngularVelocityAtFutureTime milliseconds_in_future
    updateState new_position new_velocity new_orientation new_angular_velocity timestamp

/-- The operator `Robot::operator==`. -/
def eq (a b : Robot K) : Bool :=
  decide (a.id = b.id) && decide (a.position = b.position) &&
    decide (a.velocity = b.velocity) && decide (a.orientation = b.orientation) &&
    decide (a.angularVelocity = b.angularVelocity)

/-- The operator `Robot::operator!=`. -/
def ne (a b : Robot K) : Bool := !(eq a b)

end Robot

/-! ## Geometries -/

/-- The property that makes `hypot` the Euclidean length: it is non-negative and
its square is the sum of the squares of the coordinates. -/
def Geometry.Euclidean {K : Type} [LinearOrderedField K] (g : Geometry K) : Prop :=
  ∀ a b : K, 0 ≤ g.hypot a b ∧ g.hypot a b * g.hypot a b = a * a + b * b

/-- Modelled from the spec: the reduction of an angle "to a canonical angle range"
that `Angle::operator+` (`geom/angle.h`, not among the source files) applies to a
sum, for the one-turn range `[lo, lo + turn)`: a whole number of turns is taken
off the value. -/
def wrapToRange {K : Type} [LinearOrderedField K] [FloorRing K] (lo turn x : K) : K :=
  x - turn * ((⌊(x - lo) / turn⌋ : Int) : K)

/-- Modelled from the spec: a geometry whose sums of angles are reduced to the
canonical range `[lo, lo + turn)`. -/
def canonicalGeometry {K : Type} [LinearOrderedField K] [FloorRing K]
    (hypot : K → K → K) (lo turn : K) : Geometry K :=
  ⟨hypot, wrapToRange lo turn⟩

/-! ## Sequences of updates -/

/-- One call of an updating member function of `Robot`, with its arguments. -/
inductive Update (K : Type) where
  | state (new_position : Point K) (new_velocity : Vector K) (new_orientation : Angle K)
      (new_angular_velocity : AngularVelocity K) (timestamp : TimePoint)
  | stateFrom (new_robot_data : Robot K)
  | predicted (timestamp : TimePoint)

/-- The call that an `Update` stands for. -/
def Update.run {K : Type} [LinearOrderedField K] (g : Geometry K) :
    Update K → Method (Robot K) Unit
  | Update.state p v o w t => Robot.updateState p v o w t
  | Update.stateFrom o => Robot.updateStateFrom o
  | Update.predicted t => Robot.updateStateToPredictedState g t

/-- A caller making the calls of a list one after the other on the same robot. -/
def runUpdates {K : Type} [LinearOrderedField K] (g : Geometry K) :
    List (Update K) → Method (Robot K) Unit
  | [] => pure ()
  | u :: us => do
    u.run g
    runUpdates g us

/-! ## The navigator -/

/-- What a call hands to its caller when it does not end the process: its return
value, or an exception that propagates out of the call. -/
inductive Completion (α : Type) where
  | value (a : α)
  | thrown (what : String)
  deriving DecidableEq, Repr

/-- Modelled from the spec: the settings that `rrt.cpp` reads and that are declared
outside the source files: the name constant `MOVE_INTENT_NAME`
(`ai/intent/move_intent.h`), the tunable
`DynamicParameters::Navigator::default_avoid_dist` ("default avoidance distance")
and the "robot physical radius". -/
structure NavParameters (K : Type) where
  MOVE_INTENT_NAME : String
  default_avoid_dist : K
  robot_radius : K

/-- Modelled from the spec: `World` (not among the source files), the "current set
of friendly robots and enemy robots". -/
structure World (K : Type) where
  friendlyTeam : List (Robot K)
  enemyTeam : List (Robot K)

/-- Modelled from the spec: `RobotObstacle` (`ai/navigator/RobotObstacle.h`, not
among the source files), "a circular region in the plane". -/
structure RobotObstacle (K : Type) where
  center : Point K
  radius : K
  deriving DecidableEq, Repr

/-- Modelled from the spec: `generate_friendly_obstacles` (not among the source
files): "one Obstacle per state, centered at the state's position, with radius =
robot physical radius + avoidance margin". -/
def generate_friendly_obstacles {K : Type} [LinearOrderedField K] (robot_radius : K)
    (team : List (Robot K)) (avoid_dist : K) : List (RobotObstacle K) :=
  team.map fun r => ⟨r.position, robot_radius + avoid_dist⟩

/-- Modelled from the spec: `generate_enemy_obstacles` (not among the source
files), the same transformation for the enemy team. -/
def generate_enemy_obstacles {K : Type} [LinearOrderedField K] (robot_radius : K)
    (team : List (Robot K)) (avoid_dist : K) : List (RobotObstacle K) :=
  team.map fun r => ⟨r.position, robot_radius + avoid_dist⟩

/-- Modelled from the spec: `MoveIntent` (`ai/intent/move_intent.h`, not among the
source files) with what its accessors `getRobotId`, `getDestination`,
`getFinalAngle` and `getFinalSpeed` return. -/
structure MoveIntent (K : Type) where
  robot_id : Nat
  dest : Point K
  final_angle : Angle K
  final_speed : K
  deriving DecidableEq, Repr

/-- Modelled from the spec: an `Intent` object, either a `MoveIntent` or an object
of another class of intents, which answers `getIntentName` with `name`. -/
inductive Intent (K : Type) where
  | move (move_intent : MoveIntent K)
  | other (name : String)
  deriving DecidableEq, Repr

/-- The discriminant `Intent::getIntentName`. -/
def Intent.getIntentName {K : Type} (P : NavParameters K) : Intent K → String
  | Intent.move _ => P.MOVE_INTENT_NAME
  | Intent.other name => name

/-- The conversion `dynamic_cast<MoveIntent &>(*intent)`: the `MoveIntent` that the
object is, if it is one. -/
def Intent.dynamicCastMove {K : Type} : Intent K → Option (MoveIntent K)
  | Intent.move move_intent => some move_intent
  | Intent.other _ => none

/-- The data members of `MovePrimitive` (`ai/primitive/move_primitive.h`), set by
its constructor `MovePrimitive(robot_id, dest, final_angle, final_speed)`. -/
structure MovePrimitive (K : Type) where
  robot_id : Nat
  dest : Point K
  final_angle : Angle K
  final_speed : K
  deriving DecidableEq, Repr

/-- A `Primitive` object; `MovePrimitive` is the one class of primitives that the
navigator creates. -/
inductive Primitive (K : Type) where
  | move (move_prim : MovePrimitive K)
  deriving DecidableEq, Repr

/-- The method `Primitive::getRobotId`. -/
def Primitive.getRobotId {K : Type} : Primitive K → Nat
  | Primitive.move move_prim => move_prim.robot_id

set_option linter.unusedVariables false in
/-- The loop of `RRTNav::getAssignedPrimitives` over the intents that are left,
`assigned_primitives` holding the primitives created so far. A `dynamic_cast` to a
reference that fails throws `std::bad_cast`. -/
def getAssignedPrimitivesLoop {K : Type} [LinearOrderedField K] (P : NavParameters K)
    (world : World K) :
    List (Intent K) → List (Primitive K) → Outcome (Completion (List (Primitive K)))
  | [], assigned_primitives => Outcome.returned (Completion.value assigned_primitives)
  | intent :: rest, assigned_primitives =>
    if intent.getIntentName P = P.MOVE_INTENT_NAME then
      match intent.dynamicCastMove with
      | none => Outcome.returned (Completion.thrown "std::bad_cast")
      | some move_intent =>
        let friendly_obsts :=
          generate_friendly_obstacles P.robot_radius world.friendlyTeam P.default_avoid_dist
        let enemy_obsts :=
          generate_enemy_obstacles P.robot_radius world.enemyTeam P.default_avoid_dist
        let move_prim : Primitive K :=
          Primitive.move ⟨move_intent.robot_id, move_intent.dest, move_intent.final_angle,
            move_intent.final_speed⟩
        getAssignedPrimitivesLoop P world rest (assigned_primitives ++ [move_prim])
    else
      Outcome.exited 1 ["Error: Unrecognized Intent given to navigator"]

/-- The method `RRTNav::getAssignedPrimitives`. -/
def getAssignedPrimitives {K : Type} [LinearOrderedField K] (P : NavParameters K)
    (world : World K) (assignedIntents : List (Intent K)) :
    Outcome (Completion (List (Primitive K))) :=
  getAssignedPrimitivesLoop P world assignedIntents []

/-- The `MovePrimitive` that the navigator creates for a `MoveIntent`. -/
def MoveIntent.toPrimitive {K : Type} (move_intent : MoveIntent K) : Primitive K :=
  Primitive.move ⟨move_intent.robot_id, move_intent.dest, move_intent.final_angle,
    move_intent.final_speed⟩

/-! ## Paths and obstacles -/

/-- The friendly robot with the given id: the robot that a primitive commands. -/
def World.friendlyRobot {K : Type} (world : World K) (robot_id : Nat) : Option (Robot K) :=
  world.friendlyTeam.find? fun r => decide (r.id = robot_id)

/-- Modelled from the spec: the "segment-to-circle collision test": the segment from
`a` to `b` intersects the obstacle when its point nearest to the centre is within
the radius of the centre. -/
def segmentIntersectsObstacle {K : Type} [LinearOrderedField K] (a b : Point K)
    (o : RobotObstacle K) : Bool :=
  let dx := b.x - a.x
  let dy := b.y - a.y
  let l2 := dx * dx + dy * dy
  let t := if l2 = 0 then 0
    else max 0 (min 1 (((o.center.x - a.x) * dx + (o.center.y - a.y) * dy) / l2))
  let nx := a.x + t * dx - o.center.x
  let ny := a.y + t * dy - o.center.y
  decide (nx * nx + ny * ny ≤ o.radius * o.radius)

/-! ## Test data -/

/-- The Euclidean geometry over a field with a square root function `sqrt`, sums
of angles being reduced by `wrap`. -/
def sqrtGeometry {K : Type} [LinearOrderedField K] (sqrt : K → K) (wrap : K → K) :
    Geometry K :=
  ⟨fun a b => sqrt (a * a + b * b), wrap⟩

/-- A robot at `(1, 2)` moving with velocity `(3, 4)`, of speed 5 m/s, turning at
2 rad/s from the orientation 1 rad, observed at tick `10000000` (10 ms). -/
def sampleRobot {K : Type} [LinearOrderedField K] : Robot K :=
  ⟨7, ⟨1, 2⟩, ⟨3, 4⟩, ⟨1⟩, ⟨2⟩, 10000000⟩

/-- A reading of another robot (id 8), later than `sampleRobot`. -/
def otherRobot {K : Type} [LinearOrderedField K] : Robot K :=
  ⟨8, ⟨0, 0⟩, ⟨0, 0⟩, ⟨0⟩, ⟨0⟩, 20000000⟩

/-- The settings of the navigator in the examples: an avoidance distance of 0.1 m
around robots of radius 0.09 m. -/
def sampleParameters : NavParameters ℚ := ⟨"Move Intent", 1 / 10, 9 / 100⟩

/-- A world with the friendly robot 0 at the origin and the enemy robot 1 at
`(1, 0)`, both at rest. -/
def sampleWorld : World ℚ :=
  ⟨[⟨0, ⟨0, 0⟩, ⟨0, 0⟩, ⟨0⟩, ⟨0⟩, 0⟩], [⟨1, ⟨1, 0⟩, ⟨0, 0⟩, ⟨0⟩, ⟨0⟩, 0⟩]⟩

/-- The intent of moving robot 0 to `(2, 0)`. -/
def sampleMove : MoveIntent ℚ := ⟨0, ⟨2, 0⟩, ⟨0⟩, 0⟩

/-! ## Unfolding lemmas -/

section Lemmas

variable {K : Type}

theorem seq_returned {σ α β : Type} {m : Method σ α} {f : α → Method σ β} {s s1 : σ}
    {a : α} (h : m s = Outcome.returned (a, s1)) : Method.seq m f s = f a s1 := by
  simp only [Method.seq, h]

theorem updateState_apply (p : Point K) (v : Vector K) (o : Angle K)
    (w : AngularVelocity K) (t : TimePoint) (r : Robot K) :
    Robot.updateState p v o w t r =
      if t < r.lastUpdateTimestamp then Outcome.exited 1 []
      else Outcome.returned ((), ⟨r.id, p, v, o, w, t⟩) := by
  simp only [Robot.updateState, bind, Method.seq, Method.self]
  split <;> rfl

theorem updateStateFrom_apply (o r : Robot K) :
    Robot.updateStateFrom o r =
      if o.id ≠ r.id then
        Outcome.exited 1 ["Error: Robot updated using a robot with a mismatched id"]
      else Robot.updateState o.position o.velocity o.orientation o.angularVelocity
        o.lastUpdateTimestamp r := by
  simp only [Robot.updateStateFrom, bind, Method.seq, Method.self]
  split <;> rfl

theorem estimatePosition_apply [LinearOrderedField K] (g : Geometry K) (ms : Int)
    (r : Robot K) :
    Robot.estimatePositionAtFutureTime g ms r =
      Outcome.returned
        (r.position.add (r.velocity.norm g (r.velocity.len g * toSeconds ms)), r) := by
  simp only [Robot.estimatePositionAtFutureTime, bind, pure, Method.seq, Method.self,
    Method.ret]
  split <;> rfl

theorem estimateVelocity_apply (ms : Int) (r : Robot K) :
    Robot.estimateVelocityAtFutureTime ms r = Outcome.returned (r.velocity, r) := by
  simp only [Robot.estimateVelocityAtFutureTime, bind, pure, Method.seq, Method.self,
    Method.ret]
  split <;> rfl

theorem estimateOrientation_apply [LinearOrderedField K] (g : Geometry K) (ms : Int)
    (r : Robot K) :
    Robot.estimateOrientationAtFutureTime g ms r =
      Outcome.returned
        (Angle.add g r.orientation (r.angularVelocity.scale (toSeconds ms)), r) := by
  simp only [Robot.estimateOrientationAtFutureTime, bind, pure, Method.seq, Method.self,
    Method.ret]
  split <;> rfl

theorem estimateAngularVelocity_apply (ms : Int) (r : Robot K) :
    Robot.estimateAngularVelocityAtFutureTime ms r =
      Outcome.returned (r.angularVelocity, r) := by
  simp only [Robot.estimateAngularVelocityAtFutureTime, bind, pure, Method.seq,
    Method.self, Method.ret]
  split <;> rfl

theorem updateStateToPredictedState_apply [LinearOrderedField K] (g : Geometry K)
    (t : TimePoint) (r : Robot K) :
    Robot.updateStateToPredictedState g t r =
      if t < r.lastUpdateTimestamp then Outcome.exited 1 []
      else Outcome.returned ((),
        ⟨r.id,
          r.position.add (r.velocity.norm g (r.velocity.len g *
            toSeconds (toMilliseconds (t - r.lastUpdateTimestamp)))),
          r.velocity,
          Angle.add g r.orientation (r.angularVelocity.scale
            (toSeconds (toMilliseconds (t - r.lastUpdateTimestamp)))),
          r.angularVelocity, t⟩) := by
  simp only [Robot.updateStateToPredictedState, bind, Method.seq, Method.self]
  split
  · rfl
  · rename_i h
    rw [seq_returned (estimatePosition_apply g _ r), seq_returned (estimateVelocity_apply _ r),
      seq_returned (estimateOrientation_apply g _ r),
      seq_returned (estimateAngularVelocity_apply _ r), updateState_apply, if_neg h]

theorem sqrt_three_four : Real.sqrt (3 * 3 + 4 * 4) = 5 := by
  rw [show (3 * 3 + 4 * 4 : ℝ) = 5 * 5 by norm_num]
  exact Real.sqrt_mul_self (by norm_num)

theorem sqrtGeometry_euclidean (wrap : ℝ → ℝ) :
    (sqrtGeometry Real.sqrt wrap).Euclidean := by
  intro a b
  have h : 0 ≤ a * a + b * b := add_nonneg (mul_self_nonneg a) (mul_self_nonneg b)
  exact ⟨Real.sqrt_nonneg _, Real.mul_self_sqrt h⟩

theorem euclidean_zero [LinearOrderedField K] {g : Geometry K} (hg : g.Euclidean)
    {a b : K} (h : g.hypot a b = 0) : a = 0 ∧ b = 0 := by
  have h2 := (hg a b).2
  rw [h, mul_zero] at h2
  have ha : a * a ≤ 0 := by nlinarith [mul_self_nonneg b]
  have hb : b * b ≤ 0 := by nlinarith [mul_self_nonneg a]
  exact ⟨mul_self_eq_zero.mp (le_antisymm ha (mul_self_nonneg a)),
    mul_self_eq_zero.mp (le_antisymm hb (mul_self_nonneg b))⟩

theorem euclidean_scale [LinearOrderedField K] {g : Geometry K} (hg : g.Euclidean)
    (a b c : K) (hc : 0 ≤ c) : g.hypot (c * a) (c * b) = g.hypot a b * c := by
  rw [← mul_self_inj_of_nonneg (hg _ _).1 (mul_nonneg (hg a b).1 hc), (hg _ _).2]
  have h2 := (hg a b).2
  calc c * a * (c * a) + c * b * (c * b) = c * c * (a * a + b * b) := by ring
    _ = c * c * (g.hypot a b * g.hypot a b) := by rw [h2]
    _ = g.hypot a b * c * (g.hypot a b * c) := by ring

theorem toSeconds_nonneg [LinearOrderedField K] {ms : Int} (h : 0 ≤ ms) :
    (0 : K) ≤ toSeconds ms := by
  unfold toSeconds
  exact div_nonneg (Int.cast_nonneg.mpr h) (by norm_num)

theorem wrapToRange_mem [LinearOrderedField K] [FloorRing K] (lo turn x : K)
    (hturn : 0 < turn) :
    lo ≤ wrapToRange lo turn x ∧ wrapToRange lo turn x < lo + turn := by
  unfold wrapToRange
  have h1 : ((⌊(x - lo) / turn⌋ : Int) : K) ≤ (x - lo) / turn := Int.floor_le _
  have h2 : (x - lo) / turn < ((⌊(x - lo) / turn⌋ : Int) : K) + 1 := Int.lt_floor_add_one _
  rw [le_div_iff₀ hturn] at h1
  rw [div_lt_iff₀ hturn] at h2
  constructor <;> nlinarith

theorem update_run_mono [LinearOrderedField K] (g : Geometry K) (u : Update K)
    (r r1 : Robot K) (h : u.run g r = Outcome.returned ((), r1)) :
    r.lastUpdateTimestamp ≤ r1.lastUpdateTimestamp := by
  cases u with
  | state p v o w t =>
    simp only [Update.run, updateState_apply] at h
    split at h
    · exact absurd h (by simp)
    · rename_i ht
      simp only [Outcome.returned.injEq, Prod.mk.injEq, true_and] at h
      rw [← h]
      exact not_lt.mp ht
  | stateFrom o =>
    simp only [Update.run, updateStateFrom_apply, updateState_apply] at h
    split at h
    · exact absurd h (by simp)
    · split at h
      · exact absurd h (by simp)
      · rename_i ht
        simp only [Outcome.returned.injEq, Prod.mk.injEq, true_and] at h
        rw [← h]
        exact not_lt.mp ht
  | predicted t =>
    simp only [Update.run, updateStateToPredictedState_apply] at h
    split at h
    · exact absurd h (by simp)
    · rename_i ht
      simp only [Outcome.returned.injEq, Prod.mk.injEq, true_and] at h
      rw [← h]
      exact not_lt.mp ht

theorem runUpdates_nil [LinearOrderedField K] (g : Geometry K) (r : Robot K) :
    runUpdates g [] r = Outcome.returned ((), r) := rfl

theorem runUpdates_cons [LinearOrderedField K] (g : Geometry K) (u : Update K)
    (us : List (Update K)) (r : Robot K) :
    runUpdates g (u :: us) r = Method.seq (u.run g) (fun _ => runUpdates g us) r := by
  rw [runUpdates]
  rfl

theorem runUpdates_mono [LinearOrderedField K] (g : Geometry K) (us : List (Update K)) :
    ∀ r r1 : Robot K, runUpdates g us r = Outcome.returned ((), r1) →
      r.lastUpdateTimestamp ≤ r1.lastUpdateTimestamp := by
  induction us with
  | nil =>
    intro r r1 h
    rw [runUpdates_nil] at h
    simp only [Outcome.returned.injEq, Prod.mk.injEq, true_and] at h
    rw [h]
  | cons u us ih =>
    intro r r1 h
    rw [runUpdates_cons] at h
    cases hu : u.run g r with
    | returned v =>
      obtain ⟨x, r2⟩ := v
      rw [seq_returned hu] at h
      exact le_trans (update_run_mono g u r r2 hu) (ih r2 r1 h)
    | exited c e =>
      simp only [Method.seq, hu] at h
      exact absurd h (by simp)

theorem runUpdates_sample :
    runUpdates (sqrtGeometry Real.sqrt id)
        [Update.state ⟨5, 6⟩ ⟨0, 1⟩ ⟨3⟩ ⟨4⟩ 20000000,
          Update.stateFrom ⟨7, ⟨0, 0⟩, ⟨3, 4⟩, ⟨0⟩, ⟨1⟩, 20000000⟩,
          Update.predicted 1020000000]
        (sampleRobot : Robot ℝ) =
      Outcome.returned ((), ⟨7, ⟨3, 4⟩, ⟨3, 4⟩, ⟨1⟩, ⟨1⟩, 1020000000⟩) := by
  have e : toMilliseconds 1000000000 = 1000 := by decide
  have e5 : Real.sqrt 25 = 5 := by
    rw [show (25 : ℝ) = 5 * 5 by norm_num]
    exact Real.sqrt_mul_self (by norm_num)
  simp only [runUpdates_cons, runUpdates_nil, Update.run, Method.seq, updateState_apply,
    updateStateFrom_apply, updateStateToPredictedState_apply, sampleRobot]
  norm_num [sqrtGeometry, Point.add, Point.norm, Point.len, Angle.add, Angle.scale,
    toSeconds, e, e5]

end Lemmas

/-! ## Properties of the update operations -/

/-- C1: on a timestamp earlier than the robot's `lastUpdateTimestamp`, here tick 5
against a robot last updated at tick 10000000, `updateState` and
`updateStateToPredictedState` do not return to their caller: both end the process
with `exit(1)`. -/
theorem C1_stale_timestamp_exits :
    Robot.updateState ⟨0, 0⟩ ⟨0, 0⟩ ⟨0⟩ ⟨0⟩ 5 (sampleRobot : Robot ℚ) =
      Outcome.exited 1 [] ∧
    ∀ g : Geometry ℚ,
      Robot.updateStateToPredictedState g 5 (sampleRobot : Robot ℚ) =
        Outcome.exited 1 [] := by
  refine ⟨?_, fun g => ?_⟩
  · rw [updateState_apply]; rfl
  · rw [updateStateToPredictedState_apply]; rfl

/-- C2: `updateState` with a timestamp later than the robot's `lastUpdateTimestamp`
returns, and afterwards the timestamp, position, velocity, orientation and angular
velocity of the robot are the supplied arguments. -/
theorem C2_later_timestamp_updates {K : Type} (r : Robot K) (p : Point K) (v : Vector K)
    (o : Angle K) (w : AngularVelocity K) (t : TimePoint)
    (h : r.lastUpdateTimestamp < t) :
    ∃ r1 : Robot K, Robot.updateState p v o w t r = Outcome.returned ((), r1) ∧
      r1.lastUpdateTimestamp = t ∧ r1.position = p ∧ r1.velocity = v ∧
      r1.orientation = o ∧ r1.angularVelocity = w := by
  refine ⟨⟨r.id, p, v, o, w, t⟩, ?_, rfl, rfl, rfl, rfl, rfl⟩
  rw [updateState_apply, if_neg (not_lt.mpr (le_of_lt h))]

theorem C2_later_timestamp_updates_witness :
    (sampleRobot : Robot ℚ).lastUpdateTimestamp < 20000000 ∧
    ∃ r1 : Robot ℚ,
      Robot.updateState ⟨5, 6⟩ ⟨0, 1⟩ ⟨3⟩ ⟨4⟩ 20000000 sampleRobot =
        Outcome.returned ((), r1) ∧
      r1.lastUpdateTimestamp = 20000000 ∧ r1.position = ⟨5, 6⟩ ∧ r1.velocity = ⟨0, 1⟩ ∧
      r1.orientation = ⟨3⟩ ∧ r1.angularVelocity = ⟨4⟩ :=
  ⟨by decide, C2_later_timestamp_updates sampleRobot ⟨5, 6⟩ ⟨0, 1⟩ ⟨3⟩ ⟨4⟩ 20000000
    (by decide)⟩

/-- C3: `updateState(const Robot&)` with the data of a robot of another id (8
against 7) does not return to its caller: it writes a line to `std::cerr` and
ends the process with `exit(1)`, whether the data is later or earlier than the
robot's last update. -/
theorem C3_mismatched_id_exits :
    Robot.updateStateFrom (otherRobot : Robot ℚ) sampleRobot =
      Outcome.exited 1 ["Error: Robot updated using a robot with a mismatched id"] ∧
    Robot.updateStateFrom ({ (otherRobot : Robot ℚ) with lastUpdateTimestamp := 5 })
        sampleRobot =
      Outcome.exited 1 ["Error: Robot updated using a robot with a mismatched id"] := by
  constructor <;> rw [updateStateFrom_apply] <;> rfl

/-! ## Properties of the estimators -/

/-- C4: on the negative time delta of -1000 ms no estimator rejects the call: each
returns a computed projection, the position one second back along the velocity,
`(1, 2) - (3, 4) = (-2, -2)`, the orientation one second back, `1 - 2 = -1`, and
the current velocity and angular velocity. -/
theorem C4_negative_delta_is_computed :
    Robot.estimatePositionAtFutureTime (sqrtGeometry Real.sqrt id) (-1000)
        (sampleRobot : Robot ℝ) = Outcome.returned (⟨-2, -2⟩, sampleRobot) ∧
    Robot.estimateVelocityAtFutureTime (-1000) (sampleRobot : Robot ℝ) =
      Outcome.returned (⟨3, 4⟩, sampleRobot) ∧
    Robot.estimateOrientationAtFutureTime (sqrtGeometry Real.sqrt id) (-1000)
        (sampleRobot : Robot ℝ) = Outcome.returned (⟨-1⟩, sampleRobot) ∧
    Robot.estimateAngularVelocityAtFutureTime (-1000) (sampleRobot : Robot ℝ) =
      Outcome.returned (⟨2⟩, sampleRobot) := by
  refine ⟨?_, ?_, ?_, ?_⟩
  · rw [estimatePosition_apply]
    simp only [sampleRobot, sqrtGeometry, Point.add, Point.norm, Point.len, toSeconds,
      sqrt_three_four]
    norm_num
  · rw [estimateVelocity_apply]; rfl
  · rw [estimateOrientation_apply]
    simp only [sampleRobot, sqrtGeometry, Angle.add, Angle.scale, toSeconds, id]
    norm_num
  · rw [estimateAngularVelocity_apply]; rfl

/-- C5: in a Euclidean geometry and for a time delta `0 ≤ Δt`,
`estimatePositionAtFutureTime` returns a point whose displacement from the current
position is a non-negative multiple of the velocity and has the length
`|velocity| * Δt_seconds`; it is the current position when the velocity is the zero
vector. -/
theorem C5_position_on_ray {K : Type} [LinearOrderedField K] (g : Geometry K)
    (hg : g.Euclidean) (ms : Int) (hms : 0 ≤ ms) (r : Robot K) :
    ∃ p : Point K, Robot.estimatePositionAtFutureTime g ms r = Outcome.returned (p, r) ∧
      (∃ c : K, 0 ≤ c ∧ p.x - r.position.x = c * r.velocity.x ∧
        p.y - r.position.y = c * r.velocity.y) ∧
      g.hypot (p.x - r.position.x) (p.y - r.position.y) =
        r.velocity.len g * toSeconds ms ∧
      (r.velocity = Point.zero → p = r.position) := by
  refine ⟨_, estimatePosition_apply g ms r, ?_⟩
  have hs : (0 : K) ≤ toSeconds ms := toSeconds_nonneg hms
  have key : r.velocity.norm g (r.velocity.len g * toSeconds ms) =
      ⟨toSeconds ms * r.velocity.x, toSeconds ms * r.velocity.y⟩ := by
    unfold Point.norm
    split
    · rename_i h0
      obtain ⟨hx, hy⟩ := euclidean_zero hg h0
      simp [Point.zero, hx, hy]
    · rename_i h0
      congr 1 <;> field_simp <;> ring
  rw [key]
  simp only [Point.add, add_sub_cancel_left]
  refine ⟨⟨toSeconds ms, hs, rfl, rfl⟩, euclidean_scale hg _ _ _ hs, fun hv => ?_⟩
  rw [hv]
  simp only [Point.zero, mul_zero, add_zero]

theorem C5_position_on_ray_witness :
    (sqrtGeometry Real.sqrt id).Euclidean ∧ (0 : Int) ≤ 2000 ∧
    ∃ p : Point ℝ,
      Robot.estimatePositionAtFutureTime (sqrtGeometry Real.sqrt id) 2000
        (sampleRobot : Robot ℝ) = Outcome.returned (p, sampleRobot) ∧
      (∃ c : ℝ, 0 ≤ c ∧ p.x - (sampleRobot : Robot ℝ).position.x =
          c * (sampleRobot : Robot ℝ).velocity.x ∧
        p.y - (sampleRobot : Robot ℝ).position.y =
          c * (sampleRobot : Robot ℝ).velocity.y) ∧
      (sqrtGeometry Real.sqrt id).hypot (p.x - (sampleRobot : Robot ℝ).position.x)
          (p.y - (sampleRobot : Robot ℝ).position.y) =
        (sampleRobot : Robot ℝ).velocity.len (sqrtGeometry Real.sqrt id) *
          toSeconds 2000 ∧
      ((sampleRobot : Robot ℝ).velocity = Point.zero →
        p = (sampleRobot : Robot ℝ).position) :=
  ⟨sqrtGeometry_euclidean id, by decide,
    C5_position_on_ray (sqrtGeometry Real.sqrt id) (sqrtGeometry_euclidean id) 2000
      (by decide) sampleRobot⟩

/-- C6: `estimatePositionAtFutureTime(0)` returns the robot's current position,
whatever the velocity and whatever the length function of the geometry. -/
theorem C6_position_at_zero_delta {K : Type} [LinearOrderedField K] (g : Geometry K)
    (r : Robot K) :
    Robot.estimatePositionAtFutureTime g 0 r = Outcome.returned (r.position, r) := by
  rw [estimatePosition_apply]
  have key : r.velocity.norm g (r.velocity.len g * toSeconds 0) = Point.zero := by
    unfold Point.norm toSeconds
    split
    · rfl
    · simp [Point.zero]
  rw [key]
  simp [Point.add, Point.zero]

/-- C7: when the sums of angles are reduced to the canonical range
`[lo, lo + turn)`, `estimateOrientationAtFutureTime(Δt)` returns, for every `Δt`
and so for every `0 ≤ Δt`, an angle inside that range which differs from
`orientation + angularVelocity * Δt_seconds` by a whole number of turns. -/
theorem C7_orientation_wrapped {K : Type} [LinearOrderedField K] [FloorRing K]
    (hypot : K → K → K) (lo turn : K) (hturn : 0 < turn) (ms : Int) (r : Robot K) :
    ∃ a : Angle K,
      Robot.estimateOrientationAtFutureTime (canonicalGeometry hypot lo turn) ms r =
        Outcome.returned (a, r) ∧
      lo ≤ a.rads ∧ a.rads < lo + turn ∧
      ∃ n : Int, a.rads =
        r.orientation.rads + r.angularVelocity.rads * toSeconds ms + (n : K) * turn := by
  refine ⟨_, estimateOrientation_apply _ ms r, ?_⟩
  simp only [Angle.add, Angle.scale, canonicalGeometry]
  refine ⟨(wrapToRange_mem lo turn _ hturn).1, (wrapToRange_mem lo turn _ hturn).2,
    -⌊(r.orientation.rads + r.angularVelocity.rads * toSeconds ms - lo) / turn⌋, ?_⟩
  unfold wrapToRange
  push_cast
  ring

theorem C7_orientation_wrapped_witness :
    (0 : ℝ) < 2 * Real.pi ∧
    ∃ a : Angle ℝ,
      Robot.estimateOrientationAtFutureTime
          (canonicalGeometry (fun a b => Real.sqrt (a * a + b * b)) (-Real.pi)
            (2 * Real.pi)) 3000 (sampleRobot : Robot ℝ) =
        Outcome.returned (a, sampleRobot) ∧
      -Real.pi ≤ a.rads ∧ a.rads < -Real.pi + 2 * Real.pi ∧
      ∃ n : Int, a.rads =
        (sampleRobot : Robot ℝ).orientation.rads +
          (sampleRobot : Robot ℝ).angularVelocity.rads * toSeconds 3000 +
          (n : ℝ) * (2 * Real.pi) :=
  ⟨by positivity,
    C7_orientation_wrapped (fun a b => Real.sqrt (a * a + b * b)) (-Real.pi)
      (2 * Real.pi) (by positivity) 3000 sampleRobot⟩

/-- C8: for a timestamp `t` not earlier than the last update of the robot `s`,
`updateStateToPredictedState(t)` returns and leaves the robot with the values that
the four estimators return on `s` for the delta `t - s.lastUpdateTimestamp` (in
whole milliseconds), the velocity and the angular velocity being those of `s`,
with `lastUpdateTimestamp = t` and the id of `s`. -/
theorem C8_predicted_state_commits_estimates {K : Type} [LinearOrderedField K]
    (g : Geometry K) (s : Robot K) (t : TimePoint) (h : s.lastUpdateTimestamp ≤ t) :
    ∃ (p : Point K) (v : Vector K) (o : Angle K) (w : AngularVelocity K),
      Robot.estimatePositionAtFutureTime g (toMilliseconds (t - s.lastUpdateTimestamp)) s =
        Outcome.returned (p, s) ∧
      Robot.estimateVelocityAtFutureTime (toMilliseconds (t - s.lastUpdateTimestamp)) s =
        Outcome.returned (v, s) ∧
      Robot.estimateOrientationAtFutureTime g
          (toMilliseconds (t - s.lastUpdateTimestamp)) s = Outcome.returned (o, s) ∧
      Robot.estimateAngularVelocityAtFutureTime
          (toMilliseconds (t - s.lastUpdateTimestamp)) s = Outcome.returned (w, s) ∧
      v = s.velocity ∧ w = s.angularVelocity ∧
      Robot.updateStateToPredictedState g t s =
        Outcome.returned ((), ⟨s.id, p, v, o, w, t⟩) := by
  refine ⟨_, _, _, _, estimatePosition_apply g _ s, estimateVelocity_apply _ s,
    estimateOrientation_apply g _ s, estimateAngularVelocity_apply _ s, rfl, rfl, ?_⟩
  rw [updateStateToPredictedState_apply, if_neg (not_lt.mpr h)]

theorem C8_predicted_state_commits_estimates_witness :
    (sampleRobot : Robot ℝ).lastUpdateTimestamp ≤ 2010000000 ∧
    ∃ (p : Point ℝ) (v : Vector ℝ) (o : Angle ℝ) (w : AngularVelocity ℝ),
      Robot.estimatePositionAtFutureTime (sqrtGeometry Real.sqrt id)
          (toMilliseconds (2010000000 - (sampleRobot : Robot ℝ).lastUpdateTimestamp))
          sampleRobot = Outcome.returned (p, sampleRobot) ∧
      Robot.estimateVelocityAtFutureTime
          (toMilliseconds (2010000000 - (sampleRobot : Robot ℝ).lastUpdateTimestamp))
          sampleRobot = Outcome.returned (v, sampleRobot) ∧
      Robot.estimateOrientationAtFutureTime (sqrtGeometry Real.sqrt id)
          (toMilliseconds (2010000000 - (sampleRobot : Robot ℝ).lastUpdateTimestamp))
          sampleRobot = Outcome.returned (o, sampleRobot) ∧
      Robot.estimateAngularVelocityAtFutureTime
          (toMilliseconds (2010000000 - (sampleRobot : Robot ℝ).lastUpdateTimestamp))
          sampleRobot = Outcome.returned (w, sampleRobot) ∧
      v = (sampleRobot : Robot ℝ).velocity ∧
      w = (sampleRobot : Robot ℝ).angularVelocity ∧
      Robot.updateStateToPredictedState (sqrtGeometry Real.sqrt id) 2010000000
          sampleRobot =
        Outcome.returned ((), ⟨(sampleRobot : Robot ℝ).id, p, v, o, w, 2010000000⟩) :=
  ⟨by decide,
    C8_predicted_state_commits_estimates (sqrtGeometry Real.sqrt id) sampleRobot
      2010000000 (by decide)⟩

/-- C9: the four estimators are read-only: for every time delta, negative ones
included, each returns a value and leaves the robot, hence its id, position,
velocity, orientation, angular velocity and `lastUpdateTimestamp`, as it was
before the call. -/
theorem C9_estimators_read_only {K : Type} [LinearOrderedField K] (g : Geometry K)
    (ms : Int) (r : Robot K) :
    (∃ p : Point K, Robot.estimatePositionAtFutureTime g ms r = Outcome.returned (p, r)) ∧
    (∃ v : Vector K, Robot.estimateVelocityAtFutureTime ms r = Outcome.returned (v, r)) ∧
    (∃ o : Angle K,
      Robot.estimateOrientationAtFutureTime g ms r = Outcome.returned (o, r)) ∧
    (∃ w : AngularVelocity K,
      Robot.estimateAngularVelocityAtFutureTime ms r = Outcome.returned (w, r)) :=
  ⟨⟨_, estimatePosition_apply g ms r⟩, ⟨_, estimateVelocity_apply ms r⟩,
    ⟨_, estimateOrientation_apply g ms r⟩, ⟨_, estimateAngularVelocity_apply ms r⟩⟩

/-- C10: `lastUpdateTimestamp` never decreases: when a sequence of calls of
`updateState` (either overload) and `updateStateToPredictedState` on a robot
returns, a single call being a sequence of length one, the robot's
`lastUpdateTimestamp` after it is greater than or equal to the one before it. -/
theorem C10_timestamp_monotone {K : Type} [LinearOrderedField K] (g : Geometry K)
    (us : List (Update K)) (r r1 : Robot K)
    (h : runUpdates g us r = Outcome.returned ((), r1)) :
    r.lastUpdateTimestamp ≤ r1.lastUpdateTimestamp :=
  runUpdates_mono g us r r1 h

theorem C10_timestamp_monotone_witness :
    runUpdates (sqrtGeometry Real.sqrt id)
        [Update.state ⟨5, 6⟩ ⟨0, 1⟩ ⟨3⟩ ⟨4⟩ 20000000,
          Update.stateFrom ⟨7, ⟨0, 0⟩, ⟨3, 4⟩, ⟨0⟩, ⟨1⟩, 20000000⟩,
          Update.predicted 1020000000]
        (sampleRobot : Robot ℝ) =
      Outcome.returned ((), ⟨7, ⟨3, 4⟩, ⟨3, 4⟩, ⟨1⟩, ⟨1⟩, 1020000000⟩) ∧
    (sampleRobot : Robot ℝ).lastUpdateTimestamp ≤
      (⟨7, ⟨3, 4⟩, ⟨3, 4⟩, ⟨1⟩, ⟨1⟩, 1020000000⟩ : Robot ℝ).lastUpdateTimestamp :=
  ⟨runUpdates_sample, C10_timestamp_monotone _ _ _ _ runUpdates_sample⟩

/-! ## Lemmas on the navigator -/

theorem getAssignedPrimitivesLoop_moves {K : Type} [LinearOrderedField K]
    (P : NavParameters K) (world : World K) (ms : List (MoveIntent K)) :
    ∀ acc : List (Primitive K),
      getAssignedPrimitivesLoop P world (ms.map Intent.move) acc =
        Outcome.returned (Completion.value (acc ++ ms.map MoveIntent.toPrimitive)) := by
  induction ms with
  | nil =>
    intro acc
    simp only [List.map_nil, List.append_nil, getAssignedPrimitivesLoop]
  | cons m ms ih =>
    intro acc
    simp only [List.map_cons, getAssignedPrimitivesLoop, Intent.getIntentName,
      Intent.dynamicCastMove, if_true, ih, List.append_assoc, List.singleton_append,
      MoveIntent.toPrimitive]

theorem getAssignedPrimitivesLoop_world {K : Type} [LinearOrderedField K]
    (P : NavParameters K) (w1 w2 : World K) (intents : List (Intent K)) :
    ∀ acc : List (Primitive K),
      getAssignedPrimitivesLoop P w1 intents acc =
        getAssignedPrimitivesLoop P w2 intents acc := by
  induction intents with
  | nil =>
    intro acc
    simp only [getAssignedPrimitivesLoop]
  | cons intent rest ih =>
    intro acc
    cases intent with
    | move m =>
      simp only [getAssignedPrimitivesLoop, Intent.getIntentName, Intent.dynamicCastMove,
        if_true, ih]
    | other name =>
      simp only [getAssignedPrimitivesLoop, Intent.getIntentName, Intent.dynamicCastMove]

/-! ## Properties of the navigator -/

/-- C11: for every world and every batch of Move intents, `getAssignedPrimitives`
returns one Move primitive per intent, in the order of the intents, the i-th
primitive carrying the robot id, destination, final angle and final speed of the
i-th intent. -/
theorem C11_one_move_primitive_per_intent {K : Type} [LinearOrderedField K]
    (P : NavParameters K) (world : World K) (ms : List (MoveIntent K)) :
    ∃ prims : List (Primitive K),
      getAssignedPrimitives P world (ms.map Intent.move) =
        Outcome.returned (Completion.value prims) ∧
      prims.length = ms.length ∧
      ∀ i : Nat, prims[i]? =
        (ms[i]?).map fun m => Primitive.move ⟨m.robot_id, m.dest, m.final_angle,
          m.final_speed⟩ := by
  refine ⟨ms.map MoveIntent.toPrimitive, ?_, List.length_map _ _, fun i => ?_⟩
  · rw [getAssignedPrimitives, getAssignedPrimitivesLoop_moves, List.nil_append]
  · rw [List.getElem?_map]
    rfl

/-- C12: on a batch of one Move intent and one intent of an unrecognized name, in
either order, `getAssignedPrimitives` returns no primitive and no error to its
caller: it writes a line to `std::cerr` and ends the process with `exit(1)`. -/
theorem C12_unrecognized_intent_exits :
    getAssignedPrimitives sampleParameters sampleWorld
        [Intent.move sampleMove, Intent.other "Kick Intent"] =
      Outcome.exited 1 ["Error: Unrecognized Intent given to navigator"] ∧
    getAssignedPrimitives sampleParameters sampleWorld
        [Intent.other "Kick Intent", Intent.move sampleMove] =
      Outcome.exited 1 ["Error: Unrecognized Intent given to navigator"] := by
  constructor <;>
    simp [getAssignedPrimitives, getAssignedPrimitivesLoop, Intent.getIntentName,
      Intent.dynamicCastMove, sampleParameters]

/-- C13: for the Move intent of sending robot 0 from the origin to `(2, 0)` while
the enemy robot 1 stands at `(1, 0)`, the navigator builds the obstacle circle of
the enemy robot and emits the command to move to `(2, 0)` all the same: the segment
from the robot to the commanded destination intersects the obstacle. -/
theorem C13_command_crosses_obstacle :
    getAssignedPrimitives sampleParameters sampleWorld [Intent.move sampleMove] =
      Outcome.returned (Completion.value [Primitive.move ⟨0, ⟨2, 0⟩, ⟨0⟩, 0⟩]) ∧
    (sampleWorld.friendlyRobot 0).map Robot.position = some ⟨0, 0⟩ ∧
    generate_enemy_obstacles sampleParameters.robot_radius sampleWorld.enemyTeam
        sampleParameters.default_avoid_dist = [⟨⟨1, 0⟩, 19 / 100⟩] ∧
    segmentIntersectsObstacle ⟨0, 0⟩ ⟨2, 0⟩ (⟨⟨1, 0⟩, 19 / 100⟩ : RobotObstacle ℚ) =
      true := by
  refine ⟨?_, ?_, ?_, ?_⟩
  · simp [getAssignedPrimitives, getAssignedPrimitivesLoop, Intent.getIntentName,
      Intent.dynamicCastMove, sampleParameters, sampleMove]
  · simp [World.friendlyRobot, sampleWorld]
  · simp [generate_enemy_obstacles, sampleWorld, sampleParameters]
    norm_num
  · simp [segmentIntersectsObstacle]
    norm_num

/-- C18: the outcome of `getAssignedPrimitives`, and so the list of primitives that
it returns, is the same in every two worlds, for every batch of intents and so
for every batch of Move intents. -/
theorem C18_primitives_independent_of_world {K : Type} [LinearOrderedField K]
    (P : NavParameters K) (w1 w2 : World K) (intents : List (Intent K)) :
    getAssignedPrimitives P w1 intents = getAssignedPrimitives P w2 intents := by
  rw [getAssignedPrimitives, getAssignedPrimitives,
    getAssignedPrimitivesLoop_world P w1 w2 intents]

/-! ## Further properties of the update operations -/

/-- C14: `updateState` fails, by ending the process, exactly when
`timestamp < lastUpdateTimestamp`, and returns exactly otherwise; with the
timestamp equal to the current `lastUpdateTimestamp` it is accepted and overwrites
position, velocity, orientation and angular velocity with the arguments. -/
theorem C14_update_fails_iff_stale {K : Type} (r : Robot K) (p : Point K) (v : Vector K)
    (o : Angle K) (w : AngularVelocity K) (t : TimePoint) :
    ((∃ (c : Int) (e : List String), Robot.updateState p v o w t r = Outcome.exited c e) ↔
      t < r.lastUpdateTimestamp) ∧
    ((∃ r1 : Robot K, Robot.updateState p v o w t r = Outcome.returned ((), r1)) ↔
      ¬ t < r.lastUpdateTimestamp) ∧
    Robot.updateState p v o w r.lastUpdateTimestamp r =
      Outcome.returned ((), ⟨r.id, p, v, o, w, r.lastUpdateTimestamp⟩) := by
  refine ⟨?_, ?_, ?_⟩
  · rw [updateState_apply]
    by_cases h : t < r.lastUpdateTimestamp
    · simp only [if_pos h, h, iff_true]
      exact ⟨1, [], rfl⟩
    · simp only [if_neg h, h, iff_false]
      rintro ⟨c, e, hce⟩
      exact absurd hce (by simp)
  · rw [updateState_apply]
    by_cases h : t < r.lastUpdateTimestamp
    · simp only [if_pos h, h, not_true_eq_false, iff_false]
      rintro ⟨r1, hr1⟩
      exact absurd hr1 (by simp)
    · simp only [if_neg h, h, not_false_eq_true, iff_true]
      exact ⟨_, rfl⟩
  · rw [updateState_apply, if_neg (lt_irrefl _)]

theorem robot_eq_iff {K : Type} [LinearOrderedField K] (a b : Robot K) :
    Robot.eq a b = true ↔
      a.id = b.id ∧ a.position = b.position ∧ a.velocity = b.velocity ∧
        a.orientation = b.orientation ∧ a.angularVelocity = b.angularVelocity := by
  simp only [Robot.eq, Bool.and_eq_true, decide_eq_true_eq, and_assoc]

/-- C15: when `o` has the id of `r` and a timestamp not earlier than that of `r`,
`r.updateState(o)` returns and leaves `r` equal to `o` under `operator==` with
the timestamp of `o`; `operator==` compares id, position, velocity, orientation
and angular velocity and not the timestamp, and `operator!=` is its negation. -/
theorem C15_update_from_makes_equal {K : Type} [LinearOrderedField K] (o r : Robot K)
    (hid : o.id = r.id) (ht : r.lastUpdateTimestamp ≤ o.lastUpdateTimestamp) :
    (∃ r1 : Robot K, Robot.updateStateFrom o r = Outcome.returned ((), r1) ∧
      Robot.eq r1 o = true ∧ r1.lastUpdateTimestamp = o.lastUpdateTimestamp) ∧
    (∀ a b : Robot K, Robot.eq a b = true ↔
      a.id = b.id ∧ a.position = b.position ∧ a.velocity = b.velocity ∧
        a.orientation = b.orientation ∧ a.angularVelocity = b.angularVelocity) ∧
    (∀ (a : Robot K) (t : TimePoint),
      Robot.eq a { a with lastUpdateTimestamp := t } = true) ∧
    (∀ a b : Robot K, Robot.ne a b = !Robot.eq a b) := by
  refine ⟨⟨⟨r.id, o.position, o.velocity, o.orientation, o.angularVelocity,
    o.lastUpdateTimestamp⟩, ?_, ?_, rfl⟩, robot_eq_iff, fun a t => ?_, fun a b => rfl⟩
  · rw [updateStateFrom_apply, if_neg (not_not.mpr hid), updateState_apply,
      if_neg (not_lt.mpr ht)]
  · rw [robot_eq_iff]
    exact ⟨hid.symm, rfl, rfl, rfl, rfl⟩
  · rw [robot_eq_iff]
    exact ⟨rfl, rfl, rfl, rfl, rfl⟩

theorem C15_update_from_makes_equal_witness :
    (⟨7, ⟨5, 6⟩, ⟨0, 1⟩, ⟨3⟩, ⟨4⟩, 20000000⟩ : Robot ℚ).id = (sampleRobot : Robot ℚ).id ∧
    (sampleRobot : Robot ℚ).lastUpdateTimestamp ≤
      (⟨7, ⟨5, 6⟩, ⟨0, 1⟩, ⟨3⟩, ⟨4⟩, 20000000⟩ : Robot ℚ).lastUpdateTimestamp ∧
    (∃ r1 : Robot ℚ,
      Robot.updateStateFrom ⟨7, ⟨5, 6⟩, ⟨0, 1⟩, ⟨3⟩, ⟨4⟩, 20000000⟩ sampleRobot =
        Outcome.returned ((), r1) ∧
      Robot.eq r1 ⟨7, ⟨5, 6⟩, ⟨0, 1⟩, ⟨3⟩, ⟨4⟩, 20000000⟩ = true ∧
      r1.lastUpdateTimestamp =
        (⟨7, ⟨5, 6⟩, ⟨0, 1⟩, ⟨3⟩, ⟨4⟩, 20000000⟩ : Robot ℚ).lastUpdateTimestamp) ∧
    (∀ a b : Robot ℚ, Robot.eq a b = true ↔
      a.id = b.id ∧ a.position = b.position ∧ a.velocity = b.velocity ∧
        a.orientation = b.orientation ∧ a.angularVelocity = b.angularVelocity) ∧
    (∀ (a : Robot ℚ) (t : TimePoint),
      Robot.eq a { a with lastUpdateTimestamp := t } = true) ∧
    (∀ a b : Robot ℚ, Robot.ne a b = !Robot.eq a b) :=
  ⟨rfl, by decide,
    C15_update_from_makes_equal ⟨7, ⟨5, 6⟩, ⟨0, 1⟩, ⟨3⟩, ⟨4⟩, 20000000⟩ sampleRobot rfl
      (by decide)⟩

/-! ## Lemmas on prediction -/

theorem norm_len_add {K : Type} [LinearOrderedField K] (g : Geometry K) (p : Point K)
    (v : Vector K) (s1 s2 : K) :
    (p.add (v.norm g (v.len g * s1))).add (v.norm g (v.len g * s2)) =
      p.add (v.norm g (v.len g * (s1 + s2))) := by
  unfold Point.norm
  split
  · simp [Point.add, Point.zero]
  · rename_i h0
    simp only [Point.add, Point.mk.injEq]
    constructor <;> field_simp <;> ring

theorem toMilliseconds_add {a b : Int} (ha : ticksPerMillisecond ∣ a)
    (hb : ticksPerMillisecond ∣ b) :
    toMilliseconds (a + b) = toMilliseconds a + toMilliseconds b := by
  obtain ⟨x, rfl⟩ := ha
  obtain ⟨y, rfl⟩ := hb
  have h0 : ticksPerMillisecond ≠ 0 := by decide
  unfold toMilliseconds
  rw [← mul_add, Int.mul_tdiv_cancel_left _ h0, Int.mul_tdiv_cancel_left _ h0,
    Int.mul_tdiv_cancel_left _ h0]

theorem toSeconds_add {K : Type} [LinearOrderedField K] (a b : Int) :
    (toSeconds (a + b) : K) = toSeconds a + toSeconds b := by
  unfold toSeconds
  push_cast
  ring

theorem wrapToRange_add {K : Type} [LinearOrderedField K] [FloorRing K]
    (lo turn : K) (hturn : 0 < turn) (x y : K) :
    wrapToRange lo turn (wrapToRange lo turn x + y) = wrapToRange lo turn (x + y) := by
  have ht : turn ≠ 0 := ne_of_gt hturn
  have e : (x - turn * ((⌊(x - lo) / turn⌋ : Int) : K) + y - lo) / turn =
      (x + y - lo) / turn - ((⌊(x - lo) / turn⌋ : Int) : K) := by
    field_simp
    ring
  unfold wrapToRange
  rw [e, Int.floor_sub_int]
  push_cast
  ring

theorem update_run_id {K : Type} [LinearOrderedField K] (g : Geometry K) (u : Update K)
    (r r1 : Robot K) (h : u.run g r = Outcome.returned ((), r1)) : r1.id = r.id := by
  cases u with
  | state p v o w t =>
    simp only [Update.run, updateState_apply] at h
    split at h
    · exact absurd h (by simp)
    · simp only [Outcome.returned.injEq, Prod.mk.injEq, true_and] at h
      rw [← h]
  | stateFrom o =>
    simp only [Update.run, updateStateFrom_apply, updateState_apply] at h
    split at h
    · exact absurd h (by simp)
    · split at h
      · exact absurd h (by simp)
      · simp only [Outcome.returned.injEq, Prod.mk.injEq, true_and] at h
        rw [← h]
  | predicted t =>
    simp only [Update.run, updateStateToPredictedState_apply] at h
    split at h
    · exact absurd h (by simp)
    · simp only [Outcome.returned.injEq, Prod.mk.injEq, true_and] at h
      rw [← h]

theorem runUpdates_id {K : Type} [LinearOrderedField K] (g : Geometry K)
    (us : List (Update K)) :
    ∀ r r1 : Robot K, runUpdates g us r = Outcome.returned ((), r1) → r1.id = r.id := by
  induction us with
  | nil =>
    intro r r1 h
    rw [runUpdates_nil] at h
    simp only [Outcome.returned.injEq, Prod.mk.injEq, true_and] at h
    rw [h]
  | cons u us ih =>
    intro r r1 h
    rw [runUpdates_cons] at h
    cases hu : u.run g r with
    | returned v =>
      obtain ⟨x, r2⟩ := v
      rw [seq_returned hu] at h
      exact (ih r2 r1 h).trans (update_run_id g u r r2 hu)
    | exited c e =>
      simp only [Method.seq, hu] at h
      exact absurd h (by simp)

/-! ## Properties of prediction -/

/-- C17: prediction composes. When the reduction of sums of angles is compatible
with addition, for timestamps `t0 ≤ t1 ≤ t2`, `t0` the last update of the robot,
with `t1 - t0` and `t2 - t1` whole numbers of milliseconds,
`updateStateToPredictedState(t1)` followed by `updateStateToPredictedState(t2)`
returns and leaves the robot in the state in which
`updateStateToPredictedState(t2)` alone leaves it. -/
theorem C17_prediction_composes {K : Type} [LinearOrderedField K] (g : Geometry K)
    (hg : ∀ x y : K, g.wrap (g.wrap x + y) = g.wrap (x + y)) (r : Robot K)
    (t1 t2 : TimePoint) (h1 : r.lastUpdateTimestamp ≤ t1) (h2 : t1 ≤ t2)
    (d1 : ticksPerMillisecond ∣ t1 - r.lastUpdateTimestamp)
    (d2 : ticksPerMillisecond ∣ t2 - t1) :
    ∃ r1 r2 : Robot K,
      Robot.updateStateToPredictedState g t1 r = Outcome.returned ((), r1) ∧
      Robot.updateStateToPredictedState g t2 r1 = Outcome.returned ((), r2) ∧
      Robot.updateStateToPredictedState g t2 r = Outcome.returned ((), r2) := by
  have e1 := updateStateToPredictedState_apply g t1 r
  rw [if_neg (not_lt.mpr h1)] at e1
  have e3 := updateStateToPredictedState_apply g t2 r
  rw [if_neg (not_lt.mpr (le_trans h1 h2))] at e3
  refine ⟨_, _, e1, ?_, e3⟩
  have et : t2 - r.lastUpdateTimestamp = (t1 - r.lastUpdateTimestamp) + (t2 - t1) := by
    ring
  have es : (toSeconds (toMilliseconds (t2 - r.lastUpdateTimestamp)) : K) =
      toSeconds (toMilliseconds (t1 - r.lastUpdateTimestamp)) +
        toSeconds (toMilliseconds (t2 - t1)) := by
    rw [et, toMilliseconds_add d1 d2, toSeconds_add]
  have eo : Angle.add g
        (Angle.add g r.orientation (r.angularVelocity.scale
          (toSeconds (toMilliseconds (t1 - r.lastUpdateTimestamp)))))
        (r.angularVelocity.scale (toSeconds (toMilliseconds (t2 - t1)))) =
      Angle.add g r.orientation (r.angularVelocity.scale
        (toSeconds (toMilliseconds (t2 - r.lastUpdateTimestamp)))) := by
    simp only [Angle.add, Angle.scale, hg, es, mul_add, add_assoc]
  rw [updateStateToPredictedState_apply]
  simp only [if_neg (not_lt.mpr h2), norm_len_add, eo, es]

theorem C17_prediction_composes_witness :
    (∀ x y : ℝ,
      (canonicalGeometry (fun a b => Real.sqrt (a * a + b * b)) (-Real.pi)
          (2 * Real.pi)).wrap
        ((canonicalGeometry (fun a b => Real.sqrt (a * a + b * b)) (-Real.pi)
          (2 * Real.pi)).wrap x + y) =
      (canonicalGeometry (fun a b => Real.sqrt (a * a + b * b)) (-Real.pi)
        (2 * Real.pi)).wrap (x + y)) ∧
    (sampleRobot : Robot ℝ).lastUpdateTimestamp ≤ 1010000000 ∧
    (1010000000 : TimePoint) ≤ 3010000000 ∧
    ticksPerMillisecond ∣ 1010000000 - (sampleRobot : Robot ℝ).lastUpdateTimestamp ∧
    ticksPerMillisecond ∣ 3010000000 - 1010000000 ∧
    ∃ r1 r2 : Robot ℝ,
      Robot.updateStateToPredictedState
          (canonicalGeometry (fun a b => Real.sqrt (a * a + b * b)) (-Real.pi)
            (2 * Real.pi)) 1010000000 sampleRobot = Outcome.returned ((), r1) ∧
      Robot.updateStateToPredictedState
          (canonicalGeometry (fun a b => Real.sqrt (a * a + b * b)) (-Real.pi)
            (2 * Real.pi)) 3010000000 r1 = Outcome.returned ((), r2) ∧
      Robot.updateStateToPredictedState
          (canonicalGeometry (fun a b => Real.sqrt (a * a + b * b)) (-Real.pi)
            (2 * Real.pi)) 3010000000 sampleRobot = Outcome.returned ((), r2) :=
  ⟨wrapToRange_add _ _ (by positivity), by decide, by decide, by decide, by decide,
    C17_prediction_composes _ (wrapToRange_add _ _ (by positivity)) sampleRobot
      1010000000 3010000000 (by decide) (by decide) (by decide) (by decide)⟩

/-- C19: the id of a robot is fixed at construction: when a sequence of calls of
`updateState` (either overload) and `updateStateToPredictedState` on a robot
returns, a single call being a sequence of length one, the robot's id after it is
its id before it. -/
theorem C19_id_unchanged {K : Type} [LinearOrderedField K] (g : Geometry K)
    (us : List (Update K)) (r r1 : Robot K)
    (h : runUpdates g us r = Outcome.returned ((), r1)) :
    r1.id = r.id :=
  runUpdates_id g us r r1 h

theorem C19_id_unchanged_witness :
    runUpdates (sqrtGeometry Real.sqrt id)
        [Update.state ⟨5, 6⟩ ⟨0, 1⟩ ⟨3⟩ ⟨4⟩ 20000000,
          Update.stateFrom ⟨7, ⟨0, 0⟩, ⟨3, 4⟩, ⟨0⟩, ⟨1⟩, 20000000⟩,
          Update.predicted 1020000000]
        (sampleRobot : Robot ℝ) =
      Outcome.returned ((), ⟨7, ⟨3, 4⟩, ⟨3, 4⟩, ⟨1⟩, ⟨1⟩, 1020000000⟩) ∧
    (⟨7, ⟨3, 4⟩, ⟨3, 4⟩, ⟨1⟩, ⟨1⟩, 1020000000⟩ : Robot ℝ).id =
      (sampleRobot : Robot ℝ).id :=
  ⟨runUpdates_sample, C19_id_unchanged _ _ _ _ runUpdates_sample⟩

end Thunderbots
